import Mathlib

/-!
Shallow embedding of the pepper web server's request-dispatch and
error-resolution core: Service.ServeHTTP, GetErrorPageContent and the
errorPages configuration loop from service.go, the Tracing middleware from
tracing.go, the access-log response-writer wrapper (loggingResponseWriter),
and model.Model.Render from the model package.

File systems (embed.FS, os.DirFS), the html/template engine and the HTTP
transport are external collaborators; they are modelled as abstract oracles
carried in an environment record.  The dispatcher's interaction with the
http.ResponseWriter is recorded as an explicit event trace: one event per
Header().Set, WriteHeader and Write call, plus events marking controller
invocation and static-asset probing/delegation, so that claims about what a
branch emits and in which order are statements about the trace.

Go values are translated as follows: byte slices become lists of naturals,
nil pointers and nil interface values become none, a (value, error) pair
becomes a pair of options, and machine integers become Int/Nat (no
arithmetic overflows any of the embedded code paths).
-/

namespace Pepper

/-- Response bodies: Go byte slices as lists of naturals. -/
abbrev Bytes := List Nat

/-- model.ProcessingError: the deliberate failure signal a controller
returns.  The Go field Data has interface type; none models a nil
interface value. -/
structure ProcessingError (α : Type) where
  responseCode : Int
  data : Option α

/-- The 5-tuple (int, string, string, *bytes.Buffer, *model.ProcessingError)
returned by controllers.Controller.Handle and by model.Model.Render, with
fields in the source's positional order.  A none body models a nil buffer
pointer. -/
structure HandlerResult (α : Type) where
  code : Int
  redirectUrl : String
  contentType : String
  body : Option Bytes
  err : Option (ProcessingError α)

/-- Abstract html/template engine over an abstract file-system type φ and
an abstract compiled-template type τ.  parseFS root name patterns models
template.New(name).Funcs(isset helper).ParseFS(root, patterns...); exec
models Template.Execute with a context value (none = nil interface). -/
structure TemplateEngine (φ τ α : Type) where
  parseFS : φ → String → List String → Except String τ
  exec : τ → Option α → Except String Bytes

/-- model.Model (the slog version): the data backing a built-in controller.
TemplatesDirectory is the abstract file-system root of type φ. -/
structure Model (φ : Type) where
  path : String
  templatesDirectory : φ
  template : String
  includes : List String
  responseCode : Int
  contentType : String
  googleAnalyticsId : String

/-- model.Model.Render: compile the named template plus the includes, run it
on the context value, and return the response 5-tuple.  Both the compile
failure and the execution failure return the zero tuple with a
ProcessingError carrying code 500 (the Go code logs and returns; it never
panics, which the embedding reflects by being a total function). -/
def Model.Render (eng : TemplateEngine φ τ α) (m : Model φ) (data : α) :
    HandlerResult α :=
  let patterns := m.template :: m.includes
  match eng.parseFS m.templatesDirectory m.template patterns with
  | Except.error _ => ⟨0, "", "", none, some ⟨500, none⟩⟩
  | Except.ok t =>
    match eng.exec t (some data) with
    | Except.error _ => ⟨0, "", "", none, some ⟨500, none⟩⟩
    | Except.ok buf =>
      let code := if m.responseCode = 0 then 200 else m.responseCode
      let ct := if m.contentType = "" then "text/html" else m.contentType
      ⟨code, "", ct, some buf, none⟩

/-- ErrorPageDefinition from service.go, fields in source order.  The Data
field exists in the source but is never read by the resolver. -/
structure ErrorPageDefinition (α : Type) where
  name : String
  isDefault : Bool
  isTemplate : Bool
  data : Option α

/-- Redirect from service.go: Code is a Go uint. -/
structure Redirect where
  location : String
  code : Nat
deriving DecidableEq

/-- The collaborators and configuration the dispatch/error core reads:
viper values fixed at startup, the two embedded file stores, the template
engine, and the error-page table (Go: the package-level ErrorPages map).
errorPageFiles models the embedded errorPages bundle ReadFile; staticFiles
models ReadFile on the embed.FS handed to CreateService; staticOpen models
the open-probe in staticFileExists. -/
structure Env (φ τ α : Type) where
  useEmbedded : Bool
  templates : φ
  sub : φ → String → φ
  templatesDirectory : String
  includes : List String
  engine : TemplateEngine φ τ α
  errorPageFiles : String → Except String Bytes
  staticFiles : String → Except String Bytes
  staticOpen : String → Bool
  errorPages : Int → Option (ErrorPageDefinition α)

/-- The template branch of error-page resolution: choose the templates root
(embedded sub-directory or plain file system), compile the named page plus
the configured includes, execute with the ProcessingError's context.
Mirrors service.go lines 351-373; the (bytes, error) return becomes a pair
of options. -/
def renderErrorTemplate (env : Env φ τ α) (name : String) (d : Option α) :
    Option Bytes × Option String :=
  let fsRoot := if env.useEmbedded then env.sub env.templates env.templatesDirectory
                else env.templates
  match env.engine.parseFS fsRoot name (name :: env.includes) with
  | Except.error e => (none, some e)
  | Except.ok t =>
    match env.engine.exec t d with
    | Except.error e => (none, some e)
    | Except.ok buf => (some buf, none)

/-- Read a default page from the bundled errorPages directory
(errorPageFiles.ReadFile("errorPages/" + name)). -/
def readDefaultErrorPage (env : Env φ τ α) (name : String) :
    Option Bytes × Option String :=
  match env.errorPageFiles ("errorPages/" ++ name) with
  | Except.ok b => (some b, none)
  | Except.error e => (none, some e)

/-- Read an operator-override page from the static asset store handed to
CreateService (staticFiles.ReadFile(name)). -/
def readStaticErrorPage (env : Env φ τ α) (name : String) :
    Option Bytes × Option String :=
  match env.staticFiles name with
  | Except.ok b => (some b, none)
  | Except.error e => (none, some e)

/-- GetErrorPageContent from service.go lines 348-383, written with the
source's branch structure: nil table entry falls through to (nil, nil); a
template entry compiles and executes (failures return the error); a default
entry reads the bundled page; any other entry reads the override from the
static store. -/
def GetErrorPageContent (env : Env φ τ α) (pe : ProcessingError α) :
    Option Bytes × Option String :=
  match env.errorPages pe.responseCode with
  | some errorDefinition =>
    if errorDefinition.isTemplate then
      let fsRoot := if env.useEmbedded then env.sub env.templates env.templatesDirectory
                    else env.templates
      let patterns := errorDefinition.name :: env.includes
      match env.engine.parseFS fsRoot errorDefinition.name patterns with
      | Except.error e => (none, some e)
      | Except.ok t =>
        match env.engine.exec t pe.data with
        | Except.error e => (none, some e)
        | Except.ok buf => (some buf, none)
    else
      if errorDefinition.isDefault then
        match env.errorPageFiles ("errorPages/" ++ errorDefinition.name) with
        | Except.ok b => (some b, none)
        | Except.error e => (none, some e)
      else
        match env.staticFiles errorDefinition.name with
        | Except.ok b => (some b, none)
        | Except.error e => (none, some e)
  | none => (none, none)

/-- The error-page resolution algorithm as the specification states it
(section 4.4), written from the spec's four numbered steps so that it can
be compared with GetErrorPageContent: step 1 absent lookup yields no
content and no error; step 2 template entries compile the named template
with the includes and the field-presence helper and run it on the failure
context, surfacing failures to the caller; step 3 default entries read the
bundled page; step 4 operator overrides read from the static asset store. -/
def errorPageResolveSpec (env : Env φ τ α) (pe : ProcessingError α) :
    Option Bytes × Option String :=
  match env.errorPages pe.responseCode with
  | none => (none, none)
  | some ed =>
    if ed.isTemplate then renderErrorTemplate env ed.name pe.data
    else if ed.isDefault then readDefaultErrorPage env ed.name
    else readStaticErrorPage env ed.name

/-- One iteration of the errorPages configuration loop in requestHandler
(service.go lines 220-243): override the table entry for a status code with
a configured file name.  An existing entry is mutated in place (its Data
field is kept); a missing entry is created.  Either way isDefault becomes
false and isTemplate is recomputed from the .gohtml suffix. -/
def applyErrorPageOverride (errorPages : Int → Option (ErrorPageDefinition α))
    (code : Int) (name : String) : Int → Option (ErrorPageDefinition α) :=
  fun k =>
    if k = code then
      match errorPages code with
      | some m => some { m with isDefault := false, name := name,
                                isTemplate := name.endsWith ".gohtml" }
      | none => some ⟨name, false, name.endsWith ".gohtml", none⟩
    else errorPages k

/-- staticFileExists from service.go lines 385-401: probe the static store
for the path.  The root selection and the open call are abstracted into the
staticOpen oracle. -/
def staticFileExists (env : Env φ τ α) (fileName : String) : Bool :=
  env.staticOpen fileName

/-- strings.TrimPrefix(path, "/"): drop one leading slash if present
(written on the character list so that it evaluates by reduction). -/
def trimLeadingSlash (s : String) : String :=
  match s.data with
  | [] => s
  | c :: rest => if c = '/' then String.mk rest else s

/-- An inbound request: the fields of *http.Request the embedded code
reads.  headerGet models r.Header.Get (empty string when absent);
ctxRequestId models the request-context value under requestIDKey (none
when the key is unset, as on a fresh request from the transport). -/
structure Request where
  method : String
  urlPath : String
  urlString : String
  headerGet : String → String
  ctxRequestId : Option String

/-- One observable interaction of the dispatcher with the response writer,
plus markers for controller invocation and static-asset handling.
writeBody carries the argument of w.Write (none models a nil slice). -/
inductive Ev where
  | setHeader (name value : String)
  | writeHeader (code : Int)
  | writeBody (b : Option Bytes)
  | handle
  | probeStatic (name : String) (found : Bool)
  | serveStatic

/-- The Service struct from service.go.  Its staticHandler and templates
fields live in Env as oracles; routerMap and redirects are the two lookup
tables (a none result models a map miss / nil interface).  A controller is
its Handle capability: a function from the request to the response
5-tuple. -/
structure Service (α : Type) where
  routerMap : String → Option (Request → HandlerResult α)
  redirects : String → Option Redirect

/-- Service.ServeHTTP from service.go lines 248-346, as the event trace the
handler produces on the response writer: redirect-table hit emits Location
then the configured code; otherwise a router-table miss probes the static
store and either delegates to the static file server or emits the 404 page
from GetErrorPageContent; a router hit runs the controller and emits the
error branch, the redirect-class branch, or the plain response branch.
Event order within each branch is the source's statement order. -/
def Service.ServeHTTP (env : Env φ τ α) (s : Service α) (r : Request) :
    List Ev :=
  let path := trimLeadingSlash r.urlPath
  match s.redirects path with
  | some redirect =>
    [Ev.setHeader "Location" redirect.location,
     Ev.writeHeader (redirect.code : Int)]
  | none =>
    match s.routerMap path with
    | none =>
      if staticFileExists env path then
        [Ev.probeStatic path true, Ev.serveStatic]
      else
        [Ev.probeStatic path false,
         Ev.writeHeader 404,
         Ev.setHeader "Content-Type" "text/html",
         Ev.writeBody (GetErrorPageContent env ⟨404, none⟩).1]
    | some route =>
      let res := route r
      Ev.handle ::
        (match res.err with
         | some controllerError =>
           [Ev.writeHeader controllerError.responseCode,
            Ev.setHeader "Content-Type"
              (if res.contentType = "" then "text/html" else res.contentType),
            Ev.writeBody
              (match res.body with
               | some b => some b
               | none => (GetErrorPageContent env controllerError).1)]
         | none =>
           if res.code = 301 ∨ res.code = 302 ∨ res.code = 303 ∨
              res.code = 307 ∨ res.code = 308 then
             [Ev.setHeader "Location"
                (if res.redirectUrl ≠ "" then res.redirectUrl else r.urlString),
              Ev.writeHeader res.code]
           else
             [Ev.writeHeader res.code,
              Ev.setHeader "Content-Type" res.contentType,
              Ev.writeBody res.body])

/-- The first status code the dispatcher itself wrote, if any. -/
def trStatus : List Ev → Option Int
  | [] => none
  | Ev.writeHeader c :: _ => some c
  | _ :: rest => trStatus rest

/-- The final value the dispatcher gave a response header (last Set wins,
as in a Go header map). -/
def trHeader : List Ev → String → Option String
  | [], _ => none
  | Ev.setHeader n v :: rest, name =>
    (match trHeader rest name with
     | some v2 => some v2
     | none => if n = name then some v else none)
  | _ :: rest, name => trHeader rest name

/-- The first body the dispatcher itself wrote, if any. -/
def trBody : List Ev → Option (Option Bytes)
  | [] => none
  | Ev.writeBody b :: _ => some b
  | _ :: rest => trBody rest

/-- Whether the dispatcher invoked a controller. -/
def controllerInvoked (tr : List Ev) : Bool :=
  tr.any fun e => match e with | Ev.handle => true | _ => false

/-- Whether the dispatcher consulted the static asset store at all
(existence probe or delegation). -/
def staticConsulted (tr : List Ev) : Bool :=
  tr.any fun e => match e with
    | Ev.probeStatic _ _ => true
    | Ev.serveStatic => true
    | _ => false

/-- Whether the dispatcher delegated the response to the static file
server. -/
def staticServed (tr : List Ev) : Bool :=
  tr.any fun e => match e with | Ev.serveStatic => true | _ => false

/-- True when no Content-Type header assignment occurs before the first
WriteHeader call in the trace: a Content-Type set, wherever it occurs, is
preceded by a status-line write. -/
def ctOnlyAfterWriteHeader : List Ev → Bool
  | [] => true
  | Ev.writeHeader _ :: _ => true
  | Ev.setHeader n _ :: rest =>
    if n = "Content-Type" then false else ctOnlyAfterWriteHeader rest
  | _ :: rest => ctOnlyAfterWriteHeader rest

/-- What the Tracing middleware (tracing.go lines 9-33) does to one
request: the X-Request-Id response header it sets, whether it wrapped the
inner handler in a span (otelhttp.NewHandler), and the request-context
value under requestIDKey that the inner handler receives. -/
structure TracingOutcome where
  responseRequestId : String
  spanCreated : Bool
  ctxRequestId : Option String

/-- Whether the request is exempt from span creation: method OPTIONS or
HEAD, or one of the three exempt paths. -/
def isTraceExempt (r : Request) : Bool :=
  r.method = "OPTIONS" ∨ r.method = "HEAD" ∨ r.urlPath = "/healthz" ∨
  r.urlPath = "/ready" ∨ r.urlPath = "/metrics"

/-- The Tracing middleware: take the inbound X-Request-Id or the generated
one, always set the response header, and only in the non-exempt branch
wrap the downstream handler in a span and hand it the request with the id
attached to its context (the exempt branch passes the original request
on, so the context keeps whatever value it arrived with). -/
def Tracing (nextRequestID : String) (r : Request) : TracingOutcome :=
  let requestID := if r.headerGet "X-Request-Id" = "" then nextRequestID
                   else r.headerGet "X-Request-Id"
  if r.method ≠ "OPTIONS" ∧ r.method ≠ "HEAD" ∧ r.urlPath ≠ "/healthz" ∧
     r.urlPath ≠ "/ready" ∧ r.urlPath ≠ "/metrics" then
    ⟨requestID, true, some requestID⟩
  else
    ⟨requestID, false, r.ctxRequestId⟩

/-- The request id the access-log middleware records: the context value
under requestIDKey, or the fallback "unknown" when the type assertion
fails because the key is absent. -/
def loggedRequestId (ctxRequestId : Option String) : String :=
  match ctxRequestId with
  | some id => id
  | none => "unknown"

/-- The observable state of loggingResponseWriter: captured status code and
size (the wall-clock fields are not modelled). -/
structure LoggingResponseWriter where
  statusCode : Int
  size : Nat

/-- NewLoggingResponseWriter: status defaults to http.StatusOK, size 0. -/
def newLoggingResponseWriter : LoggingResponseWriter := ⟨200, 0⟩

/-- One call the wrapped handler makes on the response writer.  write
carries the body slice (none models a nil slice). -/
inductive WriterCall where
  | writeHeader (code : Int)
  | write (body : Option Bytes)

/-- The wrapper's two overridden methods: WriteHeader records the code;
Write records len(body) when body is non-nil (a plain assignment, as in
the source). -/
def lrwStep (lrw : LoggingResponseWriter) : WriterCall → LoggingResponseWriter
  | WriterCall.writeHeader code => { lrw with statusCode := code }
  | WriterCall.write body =>
    match body with
    | some b => { lrw with size := b.length }
    | none => lrw

/-- The wrapper state after a whole request's sequence of writer calls. -/
def lrwRun (calls : List WriterCall) : LoggingResponseWriter :=
  calls.foldl lrwStep newLoggingResponseWriter

/-- The code of the last explicit WriteHeader call, if any. -/
def lastWriteHeaderCode : List WriterCall → Option Int
  | [] => none
  | WriterCall.writeHeader k :: rest =>
    (match lastWriteHeaderCode rest with
     | some k2 => some k2
     | none => some k)
  | WriterCall.write _ :: rest => lastWriteHeaderCode rest

/-- How many Write calls carried a non-nil body. -/
def bodyWriteCount : List WriterCall → Nat
  | [] => 0
  | WriterCall.writeHeader _ :: rest => bodyWriteCount rest
  | WriterCall.write none :: rest => bodyWriteCount rest
  | WriterCall.write (some _) :: rest => bodyWriteCount rest + 1

/-- Total body bytes written across the request. -/
def totalBytesWritten : List WriterCall → Nat
  | [] => 0
  | WriterCall.writeHeader _ :: rest => totalBytesWritten rest
  | WriterCall.write none :: rest => totalBytesWritten rest
  | WriterCall.write (some b) :: rest => b.length + totalBytesWritten rest

/- Concrete inputs used by the witnesses. -/

/-- A template engine whose compile step always fails. -/
def engU : TemplateEngine Unit Unit Unit :=
  ⟨fun _ _ _ => Except.error "no such template", fun _ _ => Except.error "exec"⟩

/-- A concrete environment: embedded content, a bundled 404 page whose
bytes spell "404", an empty static store, and the built-in 404 table
entry. -/
def envU : Env Unit Unit Unit where
  useEmbedded := true
  templates := ()
  sub := fun _ _ => ()
  templatesDirectory := "templates"
  includes := []
  engine := engU
  errorPageFiles := fun n =>
    if n = "errorPages/404.html" then Except.ok [52, 48, 52]
    else Except.error "open: file does not exist"
  staticFiles := fun _ => Except.error "open: file does not exist"
  staticOpen := fun _ => false
  errorPages := fun c =>
    if c = 404 then some ⟨"404.html", true, false, none⟩ else none

/-- The configured redirect old-page to /new-page with code 302. -/
def rdNew : Redirect := ⟨"/new-page", 302⟩

/-- A service with one redirect entry and no controllers. -/
def svcW : Service Unit :=
  ⟨fun _ => none, fun p => if p = "old-page" then some rdNew else none⟩

/-- A controller outcome: failure with code 404 and no pre-rendered body. -/
def peW : ProcessingError Unit := ⟨404, none⟩

/-- The 5-tuple a failing controller returns. -/
def resW : HandlerResult Unit := ⟨0, "", "", none, some peW⟩

/-- A controller that always fails with peW. -/
def ctrlW : Request → HandlerResult Unit := fun _ => resW

/-- A service with one controller mounted at form and no redirects. -/
def svcErr : Service Unit :=
  ⟨fun p => if p = "form" then some ctrlW else none, fun _ => none⟩

/-- GET /old-page. -/
def reqOld : Request := ⟨"GET", "/old-page", "/old-page", fun _ => "", none⟩

/-- GET /missing.png. -/
def reqMissing : Request :=
  ⟨"GET", "/missing.png", "/missing.png", fun _ => "", none⟩

/-- GET /form. -/
def reqForm : Request := ⟨"GET", "/form", "/form", fun _ => "", none⟩

/-- OPTIONS /foo with no inbound request id. -/
def reqOptions : Request := ⟨"OPTIONS", "/foo", "/foo", fun _ => "", none⟩

/-- GET /about with no inbound request id. -/
def reqAbout : Request := ⟨"GET", "/about", "/about", fun _ => "", none⟩

/-- A model for the about page with no overrides. -/
def mAbout : Model Unit := ⟨"about", (), "about.gohtml", [], 0, "", ""⟩

/- Branch characterisations of Service.ServeHTTP, shared by the claim
proofs below. -/

theorem serveHTTP_redirect (env : Env φ τ α) (s : Service α) (r : Request)
    (rd : Redirect) (hre : s.redirects (trimLeadingSlash r.urlPath) = some rd) :
    Service.ServeHTTP env s r =
      [Ev.setHeader "Location" rd.location, Ev.writeHeader (rd.code : Int)] := by
  simp only [Service.ServeHTTP, hre]

theorem serveHTTP_static_hit (env : Env φ τ α) (s : Service α) (r : Request)
    (hre : s.redirects (trimLeadingSlash r.urlPath) = none)
    (hro : s.routerMap (trimLeadingSlash r.urlPath) = none)
    (hex : staticFileExists env (trimLeadingSlash r.urlPath) = true) :
    Service.ServeHTTP env s r =
      [Ev.probeStatic (trimLeadingSlash r.urlPath) true, Ev.serveStatic] := by
  simp only [Service.ServeHTTP, hre, hro, hex, if_true]

theorem serveHTTP_static_miss (env : Env φ τ α) (s : Service α) (r : Request)
    (hre : s.redirects (trimLeadingSlash r.urlPath) = none)
    (hro : s.routerMap (trimLeadingSlash r.urlPath) = none)
    (hex : staticFileExists env (trimLeadingSlash r.urlPath) = false) :
    Service.ServeHTTP env s r =
      [Ev.probeStatic (trimLeadingSlash r.urlPath) false,
       Ev.writeHeader 404,
       Ev.setHeader "Content-Type" "text/html",
       Ev.writeBody (GetErrorPageContent env ⟨404, none⟩).1] := by
  simp only [Service.ServeHTTP, hre, hro, hex]
  rfl

theorem serveHTTP_controller_error (env : Env φ τ α) (s : Service α)
    (r : Request) (route : Request → HandlerResult α) (res : HandlerResult α)
    (ce : ProcessingError α)
    (hre : s.redirects (trimLeadingSlash r.urlPath) = none)
    (hro : s.routerMap (trimLeadingSlash r.urlPath) = some route)
    (hres : route r = res) (herr : res.err = some ce) :
    Service.ServeHTTP env s r =
      [Ev.handle,
       Ev.writeHeader ce.responseCode,
       Ev.setHeader "Content-Type"
         (if res.contentType = "" then "text/html" else res.contentType),
       Ev.writeBody
         (match res.body with
          | some b => some b
          | none => (GetErrorPageContent env ce).1)] := by
  simp only [Service.ServeHTTP, hre, hro, hres, herr]

theorem serveHTTP_controller_redirect (env : Env φ τ α) (s : Service α)
    (r : Request) (route : Request → HandlerResult α) (res : HandlerResult α)
    (hre : s.redirects (trimLeadingSlash r.urlPath) = none)
    (hro : s.routerMap (trimLeadingSlash r.urlPath) = some route)
    (hres : route r = res) (herr : res.err = none)
    (hcode : res.code = 301 ∨ res.code = 302 ∨ res.code = 303 ∨
             res.code = 307 ∨ res.code = 308) :
    Service.ServeHTTP env s r =
      [Ev.handle,
       Ev.setHeader "Location"
         (if res.redirectUrl ≠ "" then res.redirectUrl else r.urlString),
       Ev.writeHeader res.code] := by
  simp only [Service.ServeHTTP, hre, hro, hres, herr]
  rw [if_pos hcode]

theorem serveHTTP_controller_ok (env : Env φ τ α) (s : Service α)
    (r : Request) (route : Request → HandlerResult α) (res : HandlerResult α)
    (hre : s.redirects (trimLeadingSlash r.urlPath) = none)
    (hro : s.routerMap (trimLeadingSlash r.urlPath) = some route)
    (hres : route r = res) (herr : res.err = none)
    (hcode : ¬ (res.code = 301 ∨ res.code = 302 ∨ res.code = 303 ∨
                res.code = 307 ∨ res.code = 308)) :
    Service.ServeHTTP env s r =
      [Ev.handle,
       Ev.writeHeader res.code,
       Ev.setHeader "Content-Type" res.contentType,
       Ev.writeBody res.body] := by
  simp only [Service.ServeHTTP, hre, hro, hres, herr]
  rw [if_neg hcode]

/- Branch characterisations of GetErrorPageContent, shared below. -/

theorem getErrorPageContent_template (env : Env φ τ α) (pe : ProcessingError α)
    (ed : ErrorPageDefinition α)
    (h : env.errorPages pe.responseCode = some ed) (ht : ed.isTemplate = true) :
    GetErrorPageContent env pe = renderErrorTemplate env ed.name pe.data := by
  simp only [GetErrorPageContent, renderErrorTemplate, h, ht, if_true]

theorem getErrorPageContent_default (env : Env φ τ α) (pe : ProcessingError α)
    (ed : ErrorPageDefinition α)
    (h : env.errorPages pe.responseCode = some ed)
    (ht : ed.isTemplate = false) (hd : ed.isDefault = true) :
    GetErrorPageContent env pe = readDefaultErrorPage env ed.name := by
  simp only [GetErrorPageContent, readDefaultErrorPage, h, ht, hd]
  rfl

theorem getErrorPageContent_static (env : Env φ τ α) (pe : ProcessingError α)
    (ed : ErrorPageDefinition α)
    (h : env.errorPages pe.responseCode = some ed)
    (ht : ed.isTemplate = false) (hd : ed.isDefault = false) :
    GetErrorPageContent env pe = readStaticErrorPage env ed.name := by
  simp only [GetErrorPageContent, readStaticErrorPage, h, ht, hd]
  rfl

/-- C1: a request whose normalized path (leading slash stripped) hits the
redirect table gets exactly the configured status code and a Location
header equal to the configured location, and the dispatcher neither
invokes a controller nor touches the static asset store. -/
theorem claim_C1 (env : Env φ τ α) (s : Service α) (r : Request)
    (rd : Redirect) (hre : s.redirects (trimLeadingSlash r.urlPath) = some rd) :
    trStatus (Service.ServeHTTP env s r) = some (rd.code : Int) ∧
    trHeader (Service.ServeHTTP env s r) "Location" = some rd.location ∧
    controllerInvoked (Service.ServeHTTP env s r) = false ∧
    staticConsulted (Service.ServeHTTP env s r) = false := by
  rw [serveHTTP_redirect env s r rd hre]
  exact ⟨rfl, rfl, rfl, rfl⟩

/-- Witness for C1: the configured redirect old-page to /new-page with
code 302 is served as exactly a 302 with that Location. -/
theorem claim_C1_witness :
    trStatus (Service.ServeHTTP envU svcW reqOld) = some 302 ∧
    trHeader (Service.ServeHTTP envU svcW reqOld) "Location" = some "/new-page" ∧
    controllerInvoked (Service.ServeHTTP envU svcW reqOld) = false ∧
    staticConsulted (Service.ServeHTTP envU svcW reqOld) = false :=
  claim_C1 envU svcW reqOld rdNew (by decide)

/-- C2: a path in neither the redirect table nor the controller table is
delegated to the static file server when the asset exists, and otherwise
answered with status 404, a Content-Type of text/html and the body the
error-page resolver produces for code 404. -/
theorem claim_C2 (env : Env φ τ α) (s : Service α) (r : Request)
    (hre : s.redirects (trimLeadingSlash r.urlPath) = none)
    (hro : s.routerMap (trimLeadingSlash r.urlPath) = none) :
    (staticFileExists env (trimLeadingSlash r.urlPath) = true →
       staticServed (Service.ServeHTTP env s r) = true ∧
       trStatus (Service.ServeHTTP env s r) = none ∧
       trBody (Service.ServeHTTP env s r) = none) ∧
    (staticFileExists env (trimLeadingSlash r.urlPath) = false →
       trStatus (Service.ServeHTTP env s r) = some 404 ∧
       trHeader (Service.ServeHTTP env s r) "Content-Type" = some "text/html" ∧
       trBody (Service.ServeHTTP env s r) =
         some (GetErrorPageContent env ⟨404, none⟩).1 ∧
       staticServed (Service.ServeHTTP env s r) = false) := by
  constructor
  · intro hex
    rw [serveHTTP_static_hit env s r hre hro hex]
    exact ⟨rfl, rfl, rfl⟩
  · intro hex
    rw [serveHTTP_static_miss env s r hre hro hex]
    exact ⟨rfl, rfl, rfl, rfl⟩

/-- Witness for C2: with no route, no redirect and no static asset,
GET /missing.png yields a 404, text/html, and the bundled default 404
page bytes. -/
theorem claim_C2_witness :
    trStatus (Service.ServeHTTP envU svcW reqMissing) = some 404 ∧
    trHeader (Service.ServeHTTP envU svcW reqMissing) "Content-Type" =
      some "text/html" ∧
    trBody (Service.ServeHTTP envU svcW reqMissing) = some (some [52, 48, 52]) ∧
    staticServed (Service.ServeHTTP envU svcW reqMissing) = false :=
  (claim_C2 envU svcW reqMissing rfl rfl).2 rfl

/-- C3: GetErrorPageContent implements the spec's resolution algorithm: an
absent table entry yields no content and no error; a template entry is
compiled with the includes and executed on the failure context, surfacing
compile or execution failure as an error; a default entry reads the named
bundled page; any other entry reads the named file from the static asset
store handed to the server at startup. -/
theorem claim_C3 (env : Env φ τ α) (pe : ProcessingError α) :
    GetErrorPageContent env pe = errorPageResolveSpec env pe := by
  unfold GetErrorPageContent errorPageResolveSpec renderErrorTemplate
    readDefaultErrorPage readStaticErrorPage
  cases env.errorPages pe.responseCode with
  | none => rfl
  | some ed =>
    cases ed with
    | mk n isD isT dat => cases isT <;> cases isD <;> rfl

/-- C4: applying an operator override for status code k with file name n
leaves the table entry for k with isDefault false, name n and isTemplate
exactly when n ends in .gohtml, and resolution for code k then takes the
branch those flags select: the template render when n is a template, and
the static-store read otherwise (never the bundled default). -/
theorem claim_C4 (env : Env φ τ α) (k : Int) (n : String) (d : Option α) :
    (∃ ed, applyErrorPageOverride env.errorPages k n k = some ed ∧
       ed.name = n ∧ ed.isDefault = false ∧
       ed.isTemplate = n.endsWith ".gohtml") ∧
    GetErrorPageContent
        { env with errorPages := applyErrorPageOverride env.errorPages k n }
        ⟨k, d⟩ =
      (if n.endsWith ".gohtml" then renderErrorTemplate env n d
       else readStaticErrorPage env n) := by
  have hov : ∃ ed, applyErrorPageOverride env.errorPages k n k = some ed ∧
      ed.name = n ∧ ed.isDefault = false ∧
      ed.isTemplate = n.endsWith ".gohtml" := by
    cases h : env.errorPages k with
    | none =>
      refine ⟨⟨n, false, n.endsWith ".gohtml", none⟩, ?_, rfl, rfl, rfl⟩
      unfold applyErrorPageOverride
      rw [if_pos rfl, h]
    | some m =>
      refine ⟨{ m with isDefault := false, name := n,
                       isTemplate := n.endsWith ".gohtml" }, ?_, rfl, rfl, rfl⟩
      unfold applyErrorPageOverride
      rw [if_pos rfl, h]
  obtain ⟨ed, hed, hname, hdef, htem⟩ := hov
  refine ⟨⟨ed, hed, hname, hdef, htem⟩, ?_⟩
  have hed' : ({ env with errorPages := applyErrorPageOverride env.errorPages k n } :
      Env φ τ α).errorPages (⟨k, d⟩ : ProcessingError α).responseCode = some ed := hed
  by_cases hg : n.endsWith ".gohtml" = true
  · have h2 := getErrorPageContent_template
      { env with errorPages := applyErrorPageOverride env.errorPages k n }
      ⟨k, d⟩ ed hed' (htem.trans hg)
    rw [if_pos hg, h2, hname]
    rfl
  · have hg' : n.endsWith ".gohtml" = false := Bool.eq_false_iff.mpr hg
    have h2 := getErrorPageContent_static
      { env with errorPages := applyErrorPageOverride env.errorPages k n }
      ⟨k, d⟩ ed hed' (htem.trans hg') hdef
    rw [if_neg hg, h2, hname]
    rfl

/-- C5: when a routed controller returns a non-nil ProcessingError the
dispatcher responds with the error's response code, a Content-Type that is
the controller-supplied one or text/html when the controller supplied
none, and a body that is the controller's buffer when non-nil and the
error-page resolver's bytes for that code otherwise. -/
theorem claim_C5 (env : Env φ τ α) (s : Service α) (r : Request)
    (route : Request → HandlerResult α) (res : HandlerResult α)
    (ce : ProcessingError α)
    (hre : s.redirects (trimLeadingSlash r.urlPath) = none)
    (hro : s.routerMap (trimLeadingSlash r.urlPath) = some route)
    (hres : route r = res) (herr : res.err = some ce) :
    trStatus (Service.ServeHTTP env s r) = some ce.responseCode ∧
    trHeader (Service.ServeHTTP env s r) "Content-Type" =
      some (if res.contentType = "" then "text/html" else res.contentType) ∧
    trBody (Service.ServeHTTP env s r) =
      some (match res.body with
            | some b => some b
            | none => (GetErrorPageContent env ce).1) := by
  rw [serveHTTP_controller_error env s r route res ce hre hro hres herr]
  exact ⟨rfl, rfl, rfl⟩

/-- Witness for C5: a controller failing with code 404 and no body yields
a 404, a text/html Content-Type, and the resolver's 404 page bytes. -/
theorem claim_C5_witness :
    trStatus (Service.ServeHTTP envU svcErr reqForm) = some 404 ∧
    trHeader (Service.ServeHTTP envU svcErr reqForm) "Content-Type" =
      some "text/html" ∧
    trBody (Service.ServeHTTP envU svcErr reqForm) = some (some [52, 48, 52]) :=
  claim_C5 envU svcErr reqForm ctrlW resW peW rfl rfl rfl rfl

/-- C6: Model.Render returns the zero 5-tuple with a code-500
ProcessingError when template compilation fails or when execution fails
(it is a total function, so it cannot panic the caller), and on success it
returns code 200, empty redirect, content type text/html and the rendered
bytes with no error — except that a non-zero model response code or a
non-empty model content type replace the defaults. -/
theorem claim_C6 (eng : TemplateEngine φ τ α) (m : Model φ) (d : α) :
    (∀ e, eng.parseFS m.templatesDirectory m.template (m.template :: m.includes) =
        Except.error e →
      Model.Render eng m d = ⟨0, "", "", none, some ⟨500, none⟩⟩) ∧
    (∀ t e, eng.parseFS m.templatesDirectory m.template (m.template :: m.includes) =
        Except.ok t →
      eng.exec t (some d) = Except.error e →
      Model.Render eng m d = ⟨0, "", "", none, some ⟨500, none⟩⟩) ∧
    (∀ t buf, eng.parseFS m.templatesDirectory m.template (m.template :: m.includes) =
        Except.ok t →
      eng.exec t (some d) = Except.ok buf →
      Model.Render eng m d =
        ⟨(if m.responseCode = 0 then 200 else m.responseCode), "",
         (if m.contentType = "" then "text/html" else m.contentType),
         some buf, none⟩) := by
  refine ⟨?_, ?_, ?_⟩
  · intro e h1
    simp only [Model.Render, h1]
  · intro t e h1 h2
    simp only [Model.Render, h1, h2]
  · intro t buf h1 h2
    simp only [Model.Render, h1, h2]

/-- Witness for C6: an engine whose compile step fails makes Render of the
about model return the zero tuple with a code-500 error. -/
theorem claim_C6_witness :
    Model.Render engU mAbout () = ⟨0, "", "", none, some ⟨500, none⟩⟩ :=
  (claim_C6 engU mAbout ()).1 "no such template" rfl

/-- C7: the tracing wrapper creates no span for OPTIONS or HEAD requests
or for the paths /healthz, /ready and /metrics, yet for every request
(exempt ones included) it sets the X-Request-Id response header to the
inbound header value, or to the freshly generated id when the inbound
header is empty. -/
theorem claim_C7 (nid : String) (r : Request) :
    (isTraceExempt r = true → (Tracing nid r).spanCreated = false) ∧
    (Tracing nid r).responseRequestId =
      (if r.headerGet "X-Request-Id" = "" then nid
       else r.headerGet "X-Request-Id") := by
  constructor
  · intro h
    have h' : ¬ (r.method ≠ "OPTIONS" ∧ r.method ≠ "HEAD" ∧
        r.urlPath ≠ "/healthz" ∧ r.urlPath ≠ "/ready" ∧
        r.urlPath ≠ "/metrics") := by
      simp only [isTraceExempt, decide_eq_true_eq] at h
      tauto
    simp only [Tracing]
    rw [if_neg h']
  · by_cases h' : (r.method ≠ "OPTIONS" ∧ r.method ≠ "HEAD" ∧
        r.urlPath ≠ "/healthz" ∧ r.urlPath ≠ "/ready" ∧
        r.urlPath ≠ "/metrics")
    · simp only [Tracing]
      rw [if_pos h']
    · simp only [Tracing]
      rw [if_neg h']

/-- Witness for C7: OPTIONS /foo without an inbound id gets no span and
has the generated id echoed in X-Request-Id. -/
theorem claim_C7_witness :
    (Tracing "1700000000" reqOptions).spanCreated = false ∧
    (Tracing "1700000000" reqOptions).responseRequestId = "1700000000" := by
  have h := claim_C7 "1700000000" reqOptions
  exact ⟨h.1 (by decide), h.2⟩

/-- Counterexample to C8 as stated: for the OPTIONS /foo request the
tracing wrapper echoes the id in the response header, but the exempt
branch passes the original request on without attaching the id to its
context, so the access-log wrapper falls back to "unknown" instead of
reading the echoed id. -/
theorem claim_C8_counterexample :
    (Tracing "1700000000" reqOptions).responseRequestId = "1700000000" ∧
    loggedRequestId (Tracing "1700000000" reqOptions).ctxRequestId = "unknown" ∧
    loggedRequestId (Tracing "1700000000" reqOptions).ctxRequestId ≠
      (Tracing "1700000000" reqOptions).responseRequestId := by
  refine ⟨rfl, rfl, ?_⟩
  decide

/-- C8 amended: for every request that is not exempt from span creation
(method neither OPTIONS nor HEAD, path none of /healthz, /ready,
/metrics), the correlation id echoed in X-Request-Id is attached to the
request context handed to the downstream layers, and the access-log
wrapper logs exactly that id; for exempt requests the tracing wrapper
passes the original request on, so the context value is absent and the
access-log wrapper falls back to "unknown". -/
theorem claim_C8 (nid : String) (r : Request)
    (h : isTraceExempt r = false) :
    (Tracing nid r).ctxRequestId = some (Tracing nid r).responseRequestId ∧
    loggedRequestId (Tracing nid r).ctxRequestId =
      (Tracing nid r).responseRequestId := by
  have h' : r.method ≠ "OPTIONS" ∧ r.method ≠ "HEAD" ∧
      r.urlPath ≠ "/healthz" ∧ r.urlPath ≠ "/ready" ∧
      r.urlPath ≠ "/metrics" := by
    simp only [isTraceExempt, decide_eq_false_iff_not] at h
    tauto
  simp only [Tracing]
  rw [if_pos h']
  exact ⟨rfl, rfl⟩

/-- Witness for C8 amended: GET /about is traced, and the access-log
wrapper logs the same generated id that the header echoes. -/
theorem claim_C8_witness :
    (Tracing "1700000000" reqAbout).ctxRequestId =
      some (Tracing "1700000000" reqAbout).responseRequestId ∧
    loggedRequestId (Tracing "1700000000" reqAbout).ctxRequestId =
      (Tracing "1700000000" reqAbout).responseRequestId :=
  claim_C8 "1700000000" reqAbout (by decide)

/- Helper lemmas about the logging response-writer fold. -/

theorem lrwRun_statusCode (calls : List WriterCall) :
    ∀ st : LoggingResponseWriter,
      (calls.foldl lrwStep st).statusCode =
        (lastWriteHeaderCode calls).getD st.statusCode := by
  induction calls with
  | nil => intro st; rfl
  | cons c rest ih =>
    intro st
    cases c with
    | writeHeader k =>
      show (rest.foldl lrwStep { st with statusCode := k }).statusCode = _
      rw [ih]
      cases h : lastWriteHeaderCode rest with
      | none => simp [lastWriteHeaderCode, h]
      | some k2 => simp [lastWriteHeaderCode, h]
    | write b =>
      show (rest.foldl lrwStep (lrwStep st (WriterCall.write b))).statusCode = _
      rw [ih]
      have hs : (lrwStep st (WriterCall.write b)).statusCode = st.statusCode := by
        cases b <;> rfl
      rw [hs]
      rfl

theorem lrwRun_size_untouched (calls : List WriterCall) :
    ∀ st : LoggingResponseWriter, bodyWriteCount calls = 0 →
      (calls.foldl lrwStep st).size = st.size := by
  induction calls with
  | nil => intro st _; rfl
  | cons c rest ih =>
    intro st h
    cases c with
    | writeHeader k => exact ih { st with statusCode := k } h
    | write b =>
      cases b with
      | none => exact ih st h
      | some bs => exact absurd h (by simp [bodyWriteCount])

theorem totalBytes_of_no_writes (calls : List WriterCall)
    (h : bodyWriteCount calls = 0) : totalBytesWritten calls = 0 := by
  induction calls with
  | nil => rfl
  | cons c rest ih =>
    cases c with
    | writeHeader k =>
      simp only [bodyWriteCount] at h
      simp only [totalBytesWritten]
      exact ih h
    | write b =>
      cases b with
      | none =>
        simp only [bodyWriteCount] at h
        simp only [totalBytesWritten]
        exact ih h
      | some bs => exact absurd h (by simp [bodyWriteCount])

theorem lrwRun_size_single (calls : List WriterCall) :
    ∀ st : LoggingResponseWriter, st.size = 0 → bodyWriteCount calls ≤ 1 →
      (calls.foldl lrwStep st).size = totalBytesWritten calls := by
  induction calls with
  | nil => intro st h _; exact h
  | cons c rest ih =>
    intro st h hc
    cases c with
    | writeHeader k =>
      simp only [bodyWriteCount] at hc
      simp only [totalBytesWritten]
      exact ih { st with statusCode := k } h hc
    | write b =>
      cases b with
      | none =>
        simp only [bodyWriteCount] at hc
        simp only [totalBytesWritten]
        exact ih st h hc
      | some bs =>
        have h0 : bodyWriteCount rest = 0 := by
          simp only [bodyWriteCount] at hc
          omega
        show (rest.foldl lrwStep { st with size := bs.length }).size = _
        rw [lrwRun_size_untouched rest { st with size := bs.length } h0]
        simp only [totalBytesWritten, totalBytes_of_no_writes rest h0, Nat.add_zero]

/-- Counterexample to C9 as stated: two consecutive writes of 2 and then 1
bytes leave the wrapper's recorded size at 1, the length of the last
write, not the 3 bytes written across the request, because Write assigns
len(body) instead of accumulating it. -/
theorem claim_C9_counterexample :
    (lrwRun [WriterCall.write (some [1, 2]), WriterCall.write (some [3])]).size = 1 ∧
    totalBytesWritten [WriterCall.write (some [1, 2]), WriterCall.write (some [3])] = 3 ∧
    (lrwRun [WriterCall.write (some [1, 2]), WriterCall.write (some [3])]).size ≠
      totalBytesWritten [WriterCall.write (some [1, 2]), WriterCall.write (some [3])] := by
  refine ⟨rfl, rfl, ?_⟩
  decide

/-- C9 amended: after the inner handler completes, the wrapper's recorded
status code equals the code of the last WriteHeader call, or 200 when
WriteHeader was never called; and the recorded size equals the total body
bytes written whenever at most one Write call carried a non-nil body (in
general the wrapper only retains the length of the last non-nil body, so
the total is misreported for multi-chunk responses). -/
theorem claim_C9 (calls : List WriterCall) :
    (lrwRun calls).statusCode = (lastWriteHeaderCode calls).getD 200 ∧
    (bodyWriteCount calls ≤ 1 →
      (lrwRun calls).size = totalBytesWritten calls) := by
  constructor
  · exact lrwRun_statusCode calls newLoggingResponseWriter
  · intro h
    exact lrwRun_size_single calls newLoggingResponseWriter rfl h

/-- Witness for C9 amended: a single WriteHeader 404 followed by one
3-byte write records status 404 and size 3. -/
theorem claim_C9_witness :
    (lrwRun [WriterCall.writeHeader 404, WriterCall.write (some [1, 2, 3])]).statusCode = 404 ∧
    (lrwRun [WriterCall.writeHeader 404, WriterCall.write (some [1, 2, 3])]).size = 3 := by
  have h := claim_C9 [WriterCall.writeHeader 404, WriterCall.write (some [1, 2, 3])]
  exact ⟨h.1, h.2 (by decide)⟩

/-- C10: in every branch of Service.ServeHTTP, a Content-Type header
assignment only ever happens after the status line has been written: no
setHeader of Content-Type precedes the first writeHeader of the trace.
The redirect branches set no Content-Type at all, so the statement holds
for every request, and in the three non-redirect terminal branches
(controller failure, controller success, static-miss 404) the Content-Type
set is strictly after the WriteHeader call. -/
theorem claim_C10 (env : Env φ τ α) (s : Service α) (r : Request) :
    ctOnlyAfterWriteHeader (Service.ServeHTTP env s r) = true := by
  cases hre : s.redirects (trimLeadingSlash r.urlPath) with
  | some rd =>
    rw [serveHTTP_redirect env s r rd hre]
    rfl
  | none =>
    cases hro : s.routerMap (trimLeadingSlash r.urlPath) with
    | none =>
      cases hex : staticFileExists env (trimLeadingSlash r.urlPath) with
      | true =>
        rw [serveHTTP_static_hit env s r hre hro hex]
        rfl
      | false =>
        rw [serveHTTP_static_miss env s r hre hro hex]
        rfl
    | some route =>
      cases herr : (route r).err with
      | some ce =>
        rw [serveHTTP_controller_error env s r route (route r) ce hre hro rfl herr]
        rfl
      | none =>
        by_cases hcode : (route r).code = 301 ∨ (route r).code = 302 ∨
            (route r).code = 303 ∨ (route r).code = 307 ∨ (route r).code = 308
        · rw [serveHTTP_controller_redirect env s r route (route r) hre hro rfl herr hcode]
          rfl
        · rw [serveHTTP_controller_ok env s r route (route r) hre hro rfl herr hcode]
          rfl

end Pepper
